import Mathlib

/-!
Verification development for the chess-llm-lab backend
(`src/backend/src/api/endpoints.py`, `src/backend/src/core/config.py`,
`src/backend/src/models/schemas.py`).

The FastAPI endpoints are shallowly embedded as pure Lean functions.  The
external chess rules library (the `chess` package) and the LLM provider are
out-of-repository collaborators, so they are modelled as explicit oracles:
a `ChessLib` record of the library calls the endpoints make, and a
`ProviderOutcome` value describing what the single `ainvoke` call would do.
The process-wide credential (`_openai_api_key` in `core/config.py`) is
threaded as explicit state of type `Store`.

Machine-level faithfulness notes:
- Python truthiness of the `Optional[str]` credential (`if not api_key`)
  is `truthy` below: `None` and the empty string are falsy.
- A `raise HTTPException` inside the `try` block of `get_move` is caught by
  the trailing `except Exception` clause (FastAPI `HTTPException` is an
  `Exception` subclass), so it resurfaces as a 500 whose detail wraps the
  original; this is modelled exactly.
- An exception raised before the `try` block (for example the `TypeError`
  produced by calling `get_langchain_client(model=...)` against its
  zero-parameter definition in `core/config.py`) is unhandled and becomes
  the framework-level 500 response, modelled as `MoveResult.serverError`.
-/

namespace ChessLLM

/-- The process-wide `_openai_api_key` global of `src/core/config.py`:
`none` models Python `None`, `some s` models a string value. -/
abbrev Store := Option String

/-- Python truthiness of the `Optional[str]` credential: `None` and the empty
string are falsy, every other string is truthy. -/
def truthy : Option String → Bool
  | none => false
  | some s => !s.isEmpty

/-- Embedding of `get_global_api_key` (`src/core/config.py`, lines 33-34):
reads the global and leaves it unchanged. -/
def get_global_api_key (s : Store) : Option String × Store := (s, s)

/-- Embedding of `set_global_api_key` (`src/core/config.py`, lines 28-30):
overwrites the global with the given value. -/
def set_global_api_key (k : Option String) (_s : Store) : Unit × Store := ((), k)

/-- Python exceptions that the embedded endpoint code can raise and catch.
`httpExc` is a `fastapi.HTTPException` raised inside a `try` block. -/
inductive PyExc
  | typeError
  | validationError
  | keyError
  | valueError
  | assertionError
  | httpExc (status : Nat) (detail : String)
  deriving DecidableEq

/-- Modelled `str(e)` text of an exception, used when `get_move` interpolates
the caught exception into the 500 detail (`f"Internal server error: {str(e)}"`).
The exact Python texts vary with library versions; no claim depends on them,
only on the 500 status, so fixed representative strings are used.  For an
`HTTPException`, `str(e)` is `f"{status_code}: {detail}"`. -/
def pyStr : PyExc → String
  | .typeError => "get_langchain_client() got an unexpected keyword argument"
  | .validationError => "1 validation error for MoveSelection"
  | .keyError => "move"
  | .valueError => "invalid uci"
  | .assertionError => "san() and lan() expect move to be legal or null"
  | .httpExc status detail => toString status ++ ": " ++ detail

/-- Oracle interface to the external `chess` rules library, at exactly the
call boundary used by `get_move`:
- `parseFen` models `chess.Board(fen)` (`none` models the `ValueError` raised
  on a malformed FEN);
- `isGameOver` models `board.is_game_over()`;
- `legalMoves` models `[m.uci() for m in board.legal_moves]`;
- `fromUciOk` models whether `chess.Move.from_uci(s)` succeeds;
- `sanOf` models `board.san(chess.Move.from_uci(s))`, with `none` modelling
  an exception (for example the internal assertion that the origin square of
  the move is occupied). -/
structure ChessLib (B : Type) where
  parseFen : String → Option B
  isGameOver : B → Bool
  legalMoves : B → List String
  fromUciOk : String → Bool
  sanOf : B → String → Option String

/-- Law of the real chess rules library used by the defensive-fallback
analysis: a position that is not game-over has at least one legal move
(in python-chess, an empty legal-move set implies checkmate or stalemate,
both of which make `is_game_over()` true). -/
def ChessLib.Lawful {B : Type} (lib : ChessLib B) : Prop :=
  ∀ b : B, lib.isGameOver b = false → lib.legalMoves b ≠ []

/-- The two response shapes the endpoint normalizes
(`endpoints.py`, lines 111-120), plus the absent/null response:
- `structured`: a Pydantic `MoveSelection` object whose `move` field is a
  member of the dynamic per-request `MoveEnum` (LangChain validates the raw
  LLM output against this schema inside `ainvoke`; the constructor here
  carries the raw move string the provider proposed, and the membership
  check is performed by the embedding at the same point);
- `mapping`: a plain Python dict (key/value pairs, first binding wins);
- `nullResp`: an empty/None parsed response. -/
inductive RawResponse
  | structured (reasoning : String) (move : String)
  | mapping (pairs : List (String × String))
  | nullResp
  deriving DecidableEq

/-- Outcome of the single `structured_llm.ainvoke(...)` provider call:
either a parsed response, or one of the exception classes distinguished by
the `except` chain of `get_move` (`endpoints.py`, lines 126-146). -/
inductive ProviderOutcome
  | ok (r : RawResponse)
  | rateLimitError
  | authenticationError
  | apiConnectionError
  | otherError (msg : String)
  deriving DecidableEq

/-- Embedding of the `MoveResponse` schema (`src/models/schemas.py`). -/
structure MoveResponse where
  move : String
  san : Option String
  deriving DecidableEq

/-- Result of a `/move` request:
- `success` is an HTTP 200 with a `MoveResponse` body;
- `httpError` is a raised `fastapi.HTTPException` (status plus detail);
- `serverError` is an exception that escaped the endpoint entirely, which
  the framework turns into a bare 500 Internal Server Error. -/
inductive MoveResult
  | success (resp : MoveResponse)
  | httpError (status : Nat) (detail : String)
  | serverError (exc : PyExc)
  deriving DecidableEq

/-- Embedding of the `MoveRequest` schema (`src/models/schemas.py`):
the `model` field defaults to `"gpt-4o-mini"` when absent. -/
structure MoveRequest where
  fen : String
  model : String
  deriving DecidableEq

/-- Pydantic construction of a `MoveRequest` from a JSON body in which the
`model` field may be omitted: the schema default `"gpt-4o-mini"` fills in. -/
def mkMoveRequest (fen : String) (model? : Option String) : MoveRequest :=
  ⟨fen, model?.getD "gpt-4o-mini"⟩

/-- The behaviour of the name `get_langchain_client` as bound in the
`endpoints` module when invoked as `get_langchain_client(model=request.model)`
(`endpoints.py`, line 96).  The binding is resolved at call time in Python
(the test suite patches it), so the embedding is parametric in it:
the function receives the model argument and either returns a client
(modelled as `Unit`) or raises. -/
abbrev LCFactory := String → Except PyExc Unit

/-- The repository binding: `def get_langchain_client():` in
`src/core/config.py` (lines 20-25) takes no parameters, so the call
`get_langchain_client(model=...)` raises
`TypeError: get_langchain_client() got an unexpected keyword argument`
for every argument value. -/
def config_get_langchain_client_call : LCFactory := fun _ => .error .typeError

/-- An always-succeeding client factory, as installed by the test suite when
it patches `src.api.endpoints.get_langchain_client` with a mock. -/
def okFactory : LCFactory := fun _ => .ok ()

/-- Embedding of `chess.Move.from_uci(move_uci)` followed by
`board.san(move)` and the construction of the success body
(`endpoints.py`, lines 121-124).  Failures are the Python exceptions that
the surrounding `try` block turns into a 500. -/
def finishMove {B : Type} (lib : ChessLib B) (b : B) (move_uci : String) :
    Except PyExc MoveResponse :=
  if lib.fromUciOk move_uci then
    match lib.sanOf b move_uci with
    | some sanText => .ok ⟨move_uci, some sanText⟩
    | none => .error .assertionError
  else .error .valueError

/-- Embedding of the response-normalization region of `get_move`
(`endpoints.py`, lines 111-124), given the legal-move list `legal` from
which the dynamic `MoveEnum` was built:
- a falsy parsed response (`None` or an empty dict) raises
  `HTTPException(500, "Failed to parse LLM response")` inside the `try`;
- a structured `MoveSelection` is only produced when its `move` value is a
  member of the dynamic enum, i.e. of `legal`; an out-of-set value fails
  Pydantic validation (a generic exception);
- a dict response has its `"move"` key read with no membership check
  (`KeyError` if absent), then the enum-wrapper unwrapping
  (`hasattr(move_uci, "value")`) is the identity on the raw string. -/
def decodeAndFinish {B : Type} (lib : ChessLib B) (b : B) (legal : List String)
    (raw : RawResponse) : Except PyExc MoveResponse :=
  match raw with
  | .structured _ mv =>
    if legal.contains mv then finishMove lib b mv
    else .error .validationError
  | .mapping pairs =>
    if pairs.isEmpty then .error (.httpExc 500 "Failed to parse LLM response")
    else
      match List.lookup "move" pairs with
      | some mv => finishMove lib b mv
      | none => .error .keyError
  | .nullResp => .error (.httpExc 500 "Failed to parse LLM response")

/-- Embedding of the `try`/`except` region of `get_move`
(`endpoints.py`, lines 100-146): the provider outcome is dispatched through
the ordered `except` chain — `RateLimitError`, then `AuthenticationError`,
then `APIConnectionError`, then the generic `Exception` fallback, which also
catches every exception raised by the body itself. -/
def tryBlock {B : Type} (lib : ChessLib B) (b : B) (legal : List String)
    (outcome : ProviderOutcome) : MoveResult :=
  match outcome with
  | .ok raw =>
    match decodeAndFinish lib b legal raw with
    | .ok resp => .success resp
    | .error e => .httpError 500 ("Internal server error: " ++ pyStr e)
  | .rateLimitError =>
    .httpError 429
      "OpenAI API quota exceeded or rate limit reached. Please check your plan limits."
  | .authenticationError =>
    .httpError 401 "OpenAI API key is invalid or expired. Please check your settings."
  | .apiConnectionError =>
    .httpError 503 "Failed to connect to OpenAI API. Please check your internet connection."
  | .otherError msg => .httpError 500 ("Internal server error: " ++ msg)

/-- Embedding of the `/move` endpoint `get_move`
(`endpoints.py`, lines 65-146).  The returned `Nat` counts invocations of
the provider call `structured_llm.ainvoke` (0 or 1); the returned `Store`
is the credential global after the request.  Steps, in source order:
1. `chess.Board(request.fen)` — 400 "Invalid FEN string" on `ValueError`;
2. `board.is_game_over()` — 400 "Game is over";
3. `list(board.legal_moves)` empty — 400 "No legal moves available";
4. `get_global_api_key()` falsy — 412;
5. `get_langchain_client(model=request.model)` — an exception here is
   outside the `try` block and escapes unhandled;
6. the `try` block around the single provider call. -/
def get_move {B : Type} (lib : ChessLib B) (factory : LCFactory)
    (req : MoveRequest) (outcome : ProviderOutcome) (s : Store) :
    (MoveResult × Nat) × Store :=
  match lib.parseFen req.fen with
  | none => ((.httpError 400 "Invalid FEN string", 0), s)
  | some b =>
    if lib.isGameOver b then ((.httpError 400 "Game is over", 0), s)
    else
      let legal := lib.legalMoves b
      if legal.isEmpty then ((.httpError 400 "No legal moves available", 0), s)
      else
        let (api_key, s1) := get_global_api_key s
        if !truthy api_key then
          ((.httpError 412
              "OpenAI API key is missing. Please configure it in the settings.", 0), s1)
        else
          match factory req.model with
          | .error e => ((.serverError e, 0), s1)
          | .ok _ => ((tryBlock lib b legal outcome, 1), s1)

/-- Embedding of the `/health` endpoint (`endpoints.py`, lines 19-21):
`bool(get_global_api_key())` is Python truthiness of the credential. -/
structure HealthResponse where
  status : String
  openai_api_key_configured : Bool
  deriving DecidableEq

/-- Embedding of `health_check` (`endpoints.py`, lines 19-21). -/
def health_check (s : Store) : HealthResponse × Store :=
  let (k, s1) := get_global_api_key s
  (⟨"ok", truthy k⟩, s1)

/-- Boolean test that `pat` occurs as a contiguous run at the head of `l`. -/
def charListStartsWith : List Char → List Char → Bool
  | _, [] => true
  | [], _ :: _ => false
  | a :: as, p :: ps => a = p && charListStartsWith as ps

/-- Boolean test that `pat` occurs as a contiguous run anywhere in `l`. -/
def charListHasSub (pat : List Char) : List Char → Bool
  | [] => pat.isEmpty
  | a :: as => charListStartsWith (a :: as) pat || charListHasSub pat as

/-- Embedding of the Python substring test `pat in s`. -/
def strContains (s pat : String) : Bool :=
  charListHasSub pat.toList s.toList

/-- Embedding of the chat-model filter of `get_models`
(`endpoints.py`, lines 50-57): keep identifiers starting with `"gpt-"` or
`"o1-"` and not containing any of the excluded substrings. -/
def isChatModel (id : String) : Bool :=
  (id.startsWith "gpt-" || id.startsWith "o1-")
    && !(["-vision", "-instruct", "realtime", "audio"].any fun x => strContains id x)

/-- The static fallback list of `get_models` (`endpoints.py`, line 62),
in its exact source order. -/
def fallbackModels : List String := ["gpt-4o-mini", "gpt-4o", "gpt-3.5-turbo"]

/-- Outcome of the `client.models.list()` call inside `get_models`:
a list of model identifiers, or any exception. -/
inductive ModelsOutcome
  | listed (ids : List String)
  | failure (msg : String)
  deriving DecidableEq

/-- Embedding of the `/config/models` endpoint `get_models`
(`endpoints.py`, lines 40-62).  The return type — a plain list, no error
variant — mirrors the code: the no-credential path returns `[]` and the
catch-all `except Exception` turns every provider failure into the static
fallback, so the endpoint always responds HTTP 200 with a JSON list.
Python `sorted` on strings is the unique lexicographically nondecreasing
permutation, here `List.insertionSort`. -/
def get_models (s : Store) (out : ModelsOutcome) : List String × Store :=
  let (api_key, s1) := get_global_api_key s
  if !truthy api_key then ([], s1)
  else
    match out with
    | .listed ids => (List.insertionSort (· ≤ ·) (ids.filter isChatModel), s1)
    | .failure _ => (fallbackModels, s1)

/-- Outcome of the validation probe `temp_client.models.list()` inside
`set_api_key` (`endpoints.py`, lines 27-34): success, an
`AuthenticationError`, or any other exception with its message. -/
inductive ProbeOutcome
  | ok
  | authError
  | otherError (msg : String)
  deriving DecidableEq

/-- Result of the `/config/api-key` endpoint: the 200 success body
`{"status": "success", "message": ...}` or a raised `HTTPException`. -/
inductive ApiKeyResult
  | success (status : Nat) (statusField message : String)
  | httpError (status : Nat) (detail : String)
  deriving DecidableEq

/-- Embedding of the `/config/api-key` endpoint `set_api_key`
(`endpoints.py`, lines 24-37): probe first; only when the probe succeeds is
`set_global_api_key(request.api_key)` executed. -/
def set_api_key (req_api_key : String) (probe : ProbeOutcome) (s : Store) :
    ApiKeyResult × Store :=
  match probe with
  | .authError => (.httpError 401 "Invalid OpenAI API key provided.", s)
  | .otherError msg => (.httpError 401 ("Invalid OpenAI API key: " ++ msg), s)
  | .ok =>
    let (_, s1) := set_global_api_key (some req_api_key) s
    (.success 200 "success" "API key validated and updated", s1)

/-- The standard starting-position FEN used by the concrete scenarios. -/
def startFEN : String := "rnbqkbnr/pppppppp/8/8/8/8/PPPPPPPP/RNBQKBNR w KQkq - 0 1"

/-- The concluded Fool's-Mate FEN used by the test suite (checkmate,
white to move). -/
def foolsMateFEN : String :=
  "rnb1kbnr/pppp1ppp/8/4p3/6Pq/5P2/PPPPP2P/RNBQKBNR w KQkq - 1 3"

/-- The 20 UCI identifiers of the moves legal in the starting position,
as enumerated by `board.legal_moves` of the rules library (membership is
all that matters; generator order is immaterial to every claim). -/
def startLegalMoves : List String :=
  ["g1h3", "g1f3", "b1c3", "b1a3", "h2h3", "g2g3", "f2f3", "e2e3", "d2d3",
   "c2c3", "b2b3", "a2a3", "h2h4", "g2g4", "f2f4", "e2e4", "d2d4", "c2c4",
   "b2b4", "a2a4"]

/-- Board values of the concrete witness instantiation of the rules-library
oracle. -/
inductive WBoard
  | start
  | mated
  deriving DecidableEq, Fintype

/-- Concrete witness instantiation of the rules-library oracle, recording
the observed behaviour of python-chess on the inputs the witnesses and
counterexamples use:
- `chess.Board(startFEN)` is valid, not game-over, with the 20 legal moves
  of `startLegalMoves`; `chess.Board(foolsMateFEN)` is valid and game-over
  (checkmate) with no legal moves; every other string used is rejected;
- `chess.Move.from_uci` succeeds on the well-formed square-pair strings
  `"e2e4"`, `"e7e5"`, `"d2d4"`;
- in the starting position, `board.san` renders `"e2e4"` as `"e4"` and
  `"d2d4"` as `"d4"`; it also renders the ILLEGAL move `"e7e5"` (a black
  pawn advance while white is to move) as `"e5"` without raising: the
  library only asserts that the origin square is occupied, pushes the move
  without legality checking to compute the check suffix, and pops it. -/
def witLib : ChessLib WBoard where
  parseFen fen :=
    if fen = startFEN then some .start
    else if fen = foolsMateFEN then some .mated
    else none
  isGameOver b := match b with | .start => false | .mated => true
  legalMoves b := match b with | .start => startLegalMoves | .mated => []
  fromUciOk m := ["e2e4", "e7e5", "d2d4"].contains m
  sanOf b m :=
    match b, m with
    | .start, "e2e4" => some "e4"
    | .start, "e7e5" => some "e5"
    | .start, "d2d4" => some "d4"
    | _, _ => none

/-- Helper: the try/except region of `get_move` never produces a 400-status
error — its statuses are 200, 429, 401, 503 and 500 only. -/
theorem tryBlock_ne_status_400 {B : Type} (lib : ChessLib B) (b : B)
    (legal : List String) (outcome : ProviderOutcome) (d : String) :
    tryBlock lib b legal outcome ≠ .httpError 400 d := by
  unfold tryBlock
  cases outcome with
  | ok raw => cases h : decodeAndFinish lib b legal raw <;> simp [h]
  | rateLimitError => simp
  | authenticationError => simp
  | apiConnectionError => simp
  | otherError msg => simp

/-- Claim C3: for every syntactically invalid position string — every FEN the
rules library rejects — the /move operation fails with status 400 and detail
"Invalid FEN string", and the provider call count is zero. -/
theorem c3_invalid_fen_fails_before_provider {B : Type} (lib : ChessLib B)
    (factory : LCFactory) (req : MoveRequest) (outcome : ProviderOutcome)
    (s : Store) (hparse : lib.parseFen req.fen = none) :
    get_move lib factory req outcome s =
      ((.httpError 400 "Invalid FEN string", 0), s) := by
  unfold get_move
  rw [hparse]

/-- Witness for C3 at the concrete invalid input of the spec scenario. -/
theorem c3_invalid_fen_fails_before_provider_witness :
    get_move witLib okFactory ⟨"invalid-fen-string", "gpt-4o-mini"⟩
        (.ok .nullResp) (some "sk-test") =
      ((.httpError 400 "Invalid FEN string", 0), some "sk-test") :=
  c3_invalid_fen_fails_before_provider witLib okFactory
    ⟨"invalid-fen-string", "gpt-4o-mini"⟩ (.ok .nullResp) (some "sk-test")
    (by decide)

/-- Claim C4: a valid rules-terminal position fails with status 400 and
detail "Game is over" regardless of everything else (in particular the
game-over check precedes legal-move enumeration: the conclusion holds for
every oracle value of `legalMoves`, including the empty list); and under the
rules-library law that non-terminal positions have a legal move, no request
whatsoever produces the defensive "No legal moves available" error. -/
theorem c4_game_over_precedes_no_legal_moves {B : Type} (lib : ChessLib B)
    (factory : LCFactory) (req req2 : MoveRequest)
    (outcome out2 : ProviderOutcome) (s : Store) (b : B)
    (hparse : lib.parseFen req.fen = some b)
    (hover : lib.isGameOver b = true)
    (hlaw : lib.Lawful) :
    get_move lib factory req outcome s = ((.httpError 400 "Game is over", 0), s)
    ∧ (get_move lib factory req2 out2 s).1.1 ≠
        .httpError 400 "No legal moves available" := by
  constructor
  · unfold get_move
    rw [hparse]
    simp [hover]
  · unfold get_move
    cases hp : lib.parseFen req2.fen with
    | none => simp
    | some b2 =>
      by_cases hgo : lib.isGameOver b2
      · simp [hgo]
      · have hne : lib.legalMoves b2 ≠ [] :=
          hlaw b2 (by simpa using hgo)
        have hempty : (lib.legalMoves b2).isEmpty = false := by
          simpa [List.isEmpty_iff] using hne
        simp only [hgo, if_false, hempty, Bool.false_eq_true, get_global_api_key]
        by_cases hk : truthy s
        · simp only [hk, Bool.not_true, Bool.false_eq_true, if_false]
          cases factory req2.model with
          | error e => simp
          | ok u => simpa using tryBlock_ne_status_400 lib b2 (lib.legalMoves b2) out2 _
        · simp [hk]

/-- Witness for C4 at the concluded Fool's-Mate position. -/
theorem c4_game_over_precedes_no_legal_moves_witness :
    get_move witLib okFactory ⟨foolsMateFEN, "gpt-4o-mini"⟩ (.ok .nullResp)
        (some "sk-test") =
      ((.httpError 400 "Game is over", 0), some "sk-test")
    ∧ (get_move witLib okFactory ⟨"invalid-fen-string", "gpt-4o-mini"⟩
          (.ok .nullResp) (some "sk-test")).1.1 ≠
        .httpError 400 "No legal moves available" :=
  c4_game_over_precedes_no_legal_moves witLib okFactory
    ⟨foolsMateFEN, "gpt-4o-mini"⟩ ⟨"invalid-fen-string", "gpt-4o-mini"⟩
    (.ok .nullResp) (.ok .nullResp) (some "sk-test") .mated
    (by decide) (by decide)
    (by intro b h; cases b <;> simp_all [witLib, startLegalMoves])

/-- Counterexample to claim C5 as stated: with no credential configured, a
move request with an invalid FEN fails with 400 "Invalid FEN string", not
with the CredentialMissing 412 error — so it is not the case that every move
request fails with CredentialMissing when the store is empty. -/
theorem c5_counterexample :
    truthy none = false
    ∧ (get_move witLib okFactory ⟨"invalid-fen-string", "gpt-4o-mini"⟩
          (.ok .nullResp) none).1.1 = .httpError 400 "Invalid FEN string"
    ∧ (MoveResult.httpError 400 "Invalid FEN string" ≠
        .httpError 412
          "OpenAI API key is missing. Please configure it in the settings.") := by
  refine ⟨rfl, ?_, by decide⟩
  decide

/-- Claim C5 (amended): if no credential is configured, every move request
whose position validates — parses, is not game-over, and has a legal move —
fails with status 412 before any provider call. -/
theorem c5_credential_missing {B : Type} (lib : ChessLib B)
    (factory : LCFactory) (req : MoveRequest) (outcome : ProviderOutcome)
    (s : Store) (b : B)
    (hparse : lib.parseFen req.fen = some b)
    (hover : lib.isGameOver b = false)
    (hlegal : lib.legalMoves b ≠ [])
    (hkey : truthy s = false) :
    get_move lib factory req outcome s =
      ((.httpError 412
          "OpenAI API key is missing. Please configure it in the settings.", 0), s) := by
  unfold get_move
  rw [hparse]
  have hempty : (lib.legalMoves b).isEmpty = false := by
    simpa [List.isEmpty_iff] using hlegal
  simp [hover, hempty, get_global_api_key, hkey]

/-- Witness for C5 (amended) at the starting position with an empty store. -/
theorem c5_credential_missing_witness :
    get_move witLib okFactory ⟨startFEN, "gpt-4o-mini"⟩ (.ok .nullResp) none =
      ((.httpError 412
          "OpenAI API key is missing. Please configure it in the settings.", 0),
        none) :=
  c5_credential_missing witLib okFactory ⟨startFEN, "gpt-4o-mini"⟩
    (.ok .nullResp) none .start (by decide) (by decide) (by decide) (by decide)

/-- Claim C6: once the provider call is reached, each provider failure kind
maps to exactly its designated status — rate-limit to 429, authentication
rejection to 401 (in particular never to a 500, the specific kind winning
over the generic `except Exception` fallback), connection failure to 503,
and any other failure to the generic 500. -/
theorem c6_error_translation {B : Type} (lib : ChessLib B)
    (factory : LCFactory) (req : MoveRequest) (s : Store) (b : B)
    (d msg : String)
    (hparse : lib.parseFen req.fen = some b)
    (hover : lib.isGameOver b = false)
    (hlegal : lib.legalMoves b ≠ [])
    (hkey : truthy s = true)
    (hfac : factory req.model = .ok ()) :
    (get_move lib factory req .rateLimitError s).1.1 =
      .httpError 429
        "OpenAI API quota exceeded or rate limit reached. Please check your plan limits."
    ∧ (get_move lib factory req .authenticationError s).1.1 =
        .httpError 401
          "OpenAI API key is invalid or expired. Please check your settings."
    ∧ (get_move lib factory req .authenticationError s).1.1 ≠ .httpError 500 d
    ∧ (get_move lib factory req .apiConnectionError s).1.1 =
        .httpError 503
          "Failed to connect to OpenAI API. Please check your internet connection."
    ∧ (get_move lib factory req (.otherError msg) s).1.1 =
        .httpError 500 ("Internal server error: " ++ msg) := by
  have hempty : (lib.legalMoves b).isEmpty = false := by
    simpa [List.isEmpty_iff] using hlegal
  refine ⟨?_, ?_, ?_, ?_, ?_⟩ <;>
    · unfold get_move
      rw [hparse]
      simp [hover, hempty, get_global_api_key, hkey, hfac, tryBlock]

/-- Witness for C6 at the starting position with a configured credential. -/
theorem c6_error_translation_witness :
    (get_move witLib okFactory ⟨startFEN, "gpt-4o-mini"⟩ .rateLimitError
        (some "sk-test")).1.1 =
      .httpError 429
        "OpenAI API quota exceeded or rate limit reached. Please check your plan limits."
    ∧ (get_move witLib okFactory ⟨startFEN, "gpt-4o-mini"⟩ .authenticationError
          (some "sk-test")).1.1 =
        .httpError 401
          "OpenAI API key is invalid or expired. Please check your settings."
    ∧ (get_move witLib okFactory ⟨startFEN, "gpt-4o-mini"⟩ .authenticationError
          (some "sk-test")).1.1 ≠ .httpError 500 "Internal server error: boom"
    ∧ (get_move witLib okFactory ⟨startFEN, "gpt-4o-mini"⟩ .apiConnectionError
          (some "sk-test")).1.1 =
        .httpError 503
          "Failed to connect to OpenAI API. Please check your internet connection."
    ∧ (get_move witLib okFactory ⟨startFEN, "gpt-4o-mini"⟩ (.otherError "boom")
          (some "sk-test")).1.1 =
        .httpError 500 ("Internal server error: " ++ "boom") :=
  c6_error_translation witLib okFactory ⟨startFEN, "gpt-4o-mini"⟩
    (some "sk-test") .start "Internal server error: boom" "boom"
    (by decide) (by decide) (by decide) (by decide) rfl

/-- Claim C7: the validate-and-commit operation is atomic — when the probe
succeeds the result is the 200 success body and the store holds exactly the
new credential; when the probe fails (authentication rejection or any other
exception) the result is a 401 error and the store is returned exactly as it
was before the call. -/
theorem c7_atomic_commit (key msg : String) (s : Store) :
    set_api_key key .ok s =
      (.success 200 "success" "API key validated and updated", some key)
    ∧ set_api_key key .authError s =
        (.httpError 401 "Invalid OpenAI API key provided.", s)
    ∧ set_api_key key (.otherError msg) s =
        (.httpError 401 ("Invalid OpenAI API key: " ++ msg), s) :=
  ⟨rfl, rfl, rfl⟩

/-- Claim C10: the read-only operations never modify the stored credential —
for every store value, every request, and every provider outcome, /health,
the model listing, and /move all return the store exactly as received (the
only write path in the embedding is `set_api_key` through
`set_global_api_key`, exercised in `c7_atomic_commit`). -/
theorem c10_readonly_frame {B : Type} (lib : ChessLib B) (factory : LCFactory)
    (req : MoveRequest) (outcome : ProviderOutcome) (mout : ModelsOutcome)
    (s : Store) :
    (health_check s).2 = s
    ∧ (get_models s mout).2 = s
    ∧ (get_move lib factory req outcome s).2 = s := by
  refine ⟨rfl, ?_, ?_⟩
  · unfold get_models get_global_api_key
    cases mout <;> by_cases hk : truthy s <;> simp [hk]
  · unfold get_move get_global_api_key
    cases hp : lib.parseFen req.fen with
    | none => rfl
    | some b =>
      by_cases hgo : lib.isGameOver b
      · simp [hgo]
      · by_cases he : (lib.legalMoves b).isEmpty
        · simp [hgo, he]
        · by_cases hk : truthy s
          · cases hf : factory req.model <;> simp [hgo, he, hk, hf]
          · simp [hgo, he, hk]

/-- Counterexample to claim C1 as stated: via the plain-mapping response
shape, an adversarial provider response carrying the well-formed move
identifier "e7e5" — which is NOT in the legal-move set of the starting
position (it moves the black pawn while white is to move) — is returned as
a 200 success, because the dict branch of the endpoint reads the "move" key
with no membership check and the rules library renders the SAN of any move
whose origin square is occupied. -/
theorem c1_counterexample :
    (get_move witLib okFactory ⟨startFEN, "gpt-4o-mini"⟩
        (.ok (.mapping [("move", "e7e5")])) (some "sk-test")).1.1 =
      .success ⟨"e7e5", some "e5"⟩
    ∧ (witLib.legalMoves .start).contains "e7e5" = false :=
  ⟨by decide, by decide⟩

/-- Claim C1 (amended): the closed-set guarantee holds for the
structured-object response shape — every successful selection whose provider
response is the enum-wrapped `MoveSelection` object returns a move that is a
member of the legal-move set computed for the position, by construction of
the decoding contract (the dynamic enum validation); for the plain-mapping
shape the move value is accepted without a membership check
(see `c1_counterexample`). -/
theorem c1_structured_closed_set {B : Type} (lib : ChessLib B)
    (factory : LCFactory) (req : MoveRequest) (s : Store)
    (reasoning mv : String) (resp : MoveResponse)
    (h : (get_move lib factory req (.ok (.structured reasoning mv)) s).1.1 =
      .success resp) :
    ∃ b, lib.parseFen req.fen = some b ∧ resp.move ∈ lib.legalMoves b := by
  unfold get_move at h
  simp only [get_global_api_key] at h
  split at h
  next => simp at h
  next b hp =>
    refine ⟨b, hp, ?_⟩
    split at h
    next => simp at h
    next =>
      split at h
      next => simp at h
      next =>
        split at h
        next => simp at h
        next =>
          split at h
          next => simp at h
          next =>
            simp only [tryBlock, decodeAndFinish, finishMove] at h
            split at h
            next resp2 hc =>
              split at hc
              next hcon =>
                split at hc
                next =>
                  split at hc
                  next sanText hs =>
                    simp only [Except.ok.injEq] at hc
                    simp only [MoveResult.success.injEq] at h
                    rw [← h, ← hc]
                    exact List.mem_of_elem_eq_true hcon
                  next => simp at hc
                next => simp at hc
              next => simp at hc
            next => simp at h

/-- Witness for C1 (amended): the structured response "e2e4" at the starting
position yields a success whose move is in the legal-move set. -/
theorem c1_structured_closed_set_witness :
    ∃ b, witLib.parseFen startFEN = some b ∧
      (MoveResponse.mk "e2e4" (some "e4")).move ∈ witLib.legalMoves b :=
  c1_structured_closed_set witLib okFactory ⟨startFEN, "gpt-4o-mini"⟩
    (some "sk-test") "reasoning" "e2e4" ⟨"e2e4", some "e4"⟩ (by decide)

/-- Claim C2, settled against the code at the failing input: the request
body omitting `model` gets the schema default "gpt-4o-mini"; with the
repository binding of `get_langchain_client` — whose definition in
`src/core/config.py` takes no parameters while `endpoints.py` line 96 calls
it with the keyword argument `model` — the start-position request with a
configured credential dies with an unhandled `TypeError` (HTTP 500), with
zero provider calls, instead of the claimed 200 success; with a binding that
accepts the model argument (as the test suite installs), the same request
with the provider returning "e2e4" yields exactly the claimed 200 body
`{move: "e2e4", san: "e4"}`. -/
theorem c2_start_scenario_model_kwarg_bug {B : Type} (lib : ChessLib B)
    (factory : LCFactory) (outcome : ProviderOutcome) (s : Store) (b : B)
    (hparse : lib.parseFen startFEN = some b)
    (hover : lib.isGameOver b = false)
    (hlegal : "e2e4" ∈ lib.legalMoves b)
    (hkey : truthy s = true)
    (hfac : factory "gpt-4o-mini" = .ok ())
    (huci : lib.fromUciOk "e2e4" = true)
    (hsan : lib.sanOf b "e2e4" = some "e4") :
    (mkMoveRequest startFEN none).model = "gpt-4o-mini"
    ∧ get_move lib config_get_langchain_client_call (mkMoveRequest startFEN none)
          outcome s =
        ((.serverError .typeError, 0), s)
    ∧ get_move lib factory (mkMoveRequest startFEN none)
          (.ok (.structured "reasoning" "e2e4")) s =
        ((.success ⟨"e2e4", some "e4"⟩, 1), s) := by
  have hne : lib.legalMoves b ≠ [] := List.ne_nil_of_mem hlegal
  have hempty : (lib.legalMoves b).isEmpty = false := by
    simpa [List.isEmpty_iff] using hne
  have hc : (lib.legalMoves b).contains "e2e4" = true :=
    List.elem_eq_true_of_mem hlegal
  refine ⟨rfl, ?_, ?_⟩
  · unfold get_move
    simp [mkMoveRequest, hparse, hover, hempty, get_global_api_key, hkey,
      config_get_langchain_client_call]
  · unfold get_move
    simp [mkMoveRequest, hparse, hover, hempty, get_global_api_key, hkey, hfac,
      tryBlock, decodeAndFinish, finishMove, hc, hlegal, huci, hsan]

/-- Witness for C2 at the concrete scenario inputs. -/
theorem c2_start_scenario_model_kwarg_bug_witness :
    (mkMoveRequest startFEN none).model = "gpt-4o-mini"
    ∧ get_move witLib config_get_langchain_client_call
          (mkMoveRequest startFEN none) (.ok .nullResp) (some "sk-test") =
        ((.serverError .typeError, 0), some "sk-test")
    ∧ get_move witLib okFactory (mkMoveRequest startFEN none)
          (.ok (.structured "reasoning" "e2e4")) (some "sk-test") =
        ((.success ⟨"e2e4", some "e4"⟩, 1), some "sk-test") :=
  c2_start_scenario_model_kwarg_bug witLib okFactory (.ok .nullResp)
    (some "sk-test") .start (by decide) (by decide) (by decide) (by decide)
    rfl (by decide) (by decide)

/-- Claim C8: the model-listing operation never fails — its embedding
returns a plain list for every credential state and every provider outcome
(the endpoint always responds HTTP 200): with no configured credential
(`None` or the falsy empty string) it returns the empty sequence, and on any
provider failure with a configured credential it returns the fixed static
fallback sequence instead of propagating the error. -/
theorem c8_models_never_fail (out : ModelsOutcome) (key msg : String)
    (hkey : key.isEmpty = false) :
    get_models none out = ([], none)
    ∧ get_models (some "") out = ([], some "")
    ∧ get_models (some key) (.failure msg) = (fallbackModels, some key) := by
  refine ⟨?_, ?_, ?_⟩
  · cases out <;> rfl
  · cases out <;> rfl
  · unfold get_models get_global_api_key
    simp [truthy, hkey]

/-- Witness for C8 at a concrete nonempty credential. -/
theorem c8_models_never_fail_witness :
    get_models none (.failure "boom") = ([], none)
    ∧ get_models (some "") (.failure "boom") = ([], some "")
    ∧ get_models (some "sk-test") (.failure "boom") =
        (fallbackModels, some "sk-test") :=
  c8_models_never_fail (.failure "boom") "sk-test" "boom" (by decide)

/-- Counterexample to claim C9 as stated: on provider failure the operation
returns the static fallback list in its source order
`["gpt-4o-mini", "gpt-4o", "gpt-3.5-turbo"]`, which is not sorted
lexicographically — its first element strictly exceeds its second. -/
theorem c9_counterexample :
    (get_models (some "sk-test") (.failure "boom")).1 = fallbackModels
    ∧ ¬ List.Sorted (· ≤ ·) fallbackModels := by
  refine ⟨rfl, fun hsorted => ?_⟩
  have h1 : ("gpt-4o-mini" : String) ≤ "gpt-4o" :=
    (List.sorted_cons.mp hsorted).1 "gpt-4o" (by simp [fallbackModels])
  have h2 : ("gpt-4o" : String) < "gpt-4o-mini" :=
    String.lt_iff_toList_lt.mpr (by decide)
  exact absurd h1 h2.not_le

/-- Claim C9 (amended): the sequence returned on every successful provider
listing is sorted lexicographically (and the no-credential result, the empty
sequence, is trivially sorted); on provider failure the operation returns
the fixed fallback sequence in its unsorted source order. -/
theorem c9_success_sorted_fallback_fixed (s : Store) (ids : List String)
    (msg : String) (hkey : truthy s = true) :
    List.Sorted (· ≤ ·) (get_models s (.listed ids)).1
    ∧ (get_models s (.failure msg)).1 = fallbackModels := by
  constructor
  · unfold get_models get_global_api_key
    simp only [hkey, Bool.not_true, Bool.false_eq_true, if_false]
    exact List.sorted_insertionSort _ _
  · unfold get_models get_global_api_key
    simp [hkey]

/-- Witness for C9 (amended) at a concrete credential and listing. -/
theorem c9_success_sorted_fallback_fixed_witness :
    List.Sorted (· ≤ ·)
      (get_models (some "sk-test") (.listed ["gpt-4o", "gpt-3.5-turbo"])).1
    ∧ (get_models (some "sk-test") (.failure "boom")).1 = fallbackModels :=
  c9_success_sorted_fallback_fixed (some "sk-test")
    ["gpt-4o", "gpt-3.5-turbo"] "boom" (by decide)

end ChessLLM
